import Mathlib

/-!
# Verification of the `ipflare` client library (src/src/index.ts, Result-based API)

Shallow embedding of the library's data model and of the two public
operations `IPFlare.lookup` and `IPFlare.bulkLookup`, together with the
IPv4/IPv6 address validator (`IPV4_REGEX` / `IPV6_REGEX` / `isValidIP`).

JavaScript runtime values are modelled by the inductive `JSVal`; the
transport (`this.client.get` / `this.client.post`) is modelled by an
explicit outcome parameter, and each operation additionally returns the
list of requests it issued, so "the transport is never invoked" is the
statement that this list is empty.  A JavaScript exception escaping the
public API (a rejected promise) is modelled by the `CallResult.exn`
constructor.
-/

namespace Ipflare

/-- A JavaScript runtime value (the fragment needed by the library:
`null`, `undefined`, booleans, numbers, strings, arrays, plain objects). -/
inductive JSVal where
  | null : JSVal
  | undef : JSVal
  | bool : Bool → JSVal
  | num : Int → JSVal
  | str : String → JSVal
  | arr : List JSVal → JSVal
  | obj : List (String × JSVal) → JSVal

/-- JavaScript truthiness (`if (v)`), restricted to the modelled values:
`null`, `undefined`, `false`, `0` and `""` are falsy; everything else
(including every array and object) is truthy. -/
def truthy : JSVal → Bool
  | .null => false
  | .undef => false
  | .bool b => b
  | .num n => n != 0
  | .str s => !s.data.isEmpty
  | .arr _ => true
  | .obj _ => true

/-- `typeof v === "string"`. -/
def isStr : JSVal → Bool
  | .str _ => true
  | _ => false

/-- Optional-chaining property access `v?.k`: a key lookup on objects,
`undefined` (here `none`) on every non-object. -/
def getField : JSVal → String → Option JSVal
  | .obj kvs, k =>
    match kvs.find? (fun p => p.1 == k) with
    | some p => some p.2
    | none => none
  | _, _ => none

/-- `needle` occurs as a contiguous sublist of the second argument
(JavaScript `String.prototype.includes`, which is case-sensitive). -/
def subOf (needle : List Char) : List Char → Bool
  | [] => needle.isEmpty
  | c :: rest => needle.isPrefixOf (c :: rest) || subOf needle rest

/-- JavaScript `hay.includes(needle)` for strings. -/
def strIncludes (hay needle : String) : Bool :=
  subOf needle.data hay.data

/-- An ECMAScript whitespace or line-terminator character (the
characters removed by `String.prototype.trim`). -/
def jsWhitespace (c : Char) : Bool :=
  c.toNat = 0x9 || c.toNat = 0xA || c.toNat = 0xB || c.toNat = 0xC
    || c.toNat = 0xD || c.toNat = 0x20 || c.toNat = 0xA0 || c.toNat = 0x1680
    || (0x2000 ≤ c.toNat && c.toNat ≤ 0x200A) || c.toNat = 0x2028
    || c.toNat = 0x2029 || c.toNat = 0x202F || c.toNat = 0x205F
    || c.toNat = 0x3000 || c.toNat = 0xFEFF

/-- Drop `jsWhitespace` characters from both ends. -/
def trimChars (cs : List Char) : List Char :=
  ((cs.dropWhile jsWhitespace).reverse.dropWhile jsWhitespace).reverse

/-- JavaScript `s.trim()`. -/
def jsTrim (s : String) : String := String.mk (trimChars s.data)

mutual

/-- How `Array.prototype.join` stringifies one element: `null` and
`undefined` become the empty string, nested arrays are joined with `","`,
plain objects print as `[object Object]`. -/
def joinElem : JSVal → String
  | .null => ""
  | .undef => ""
  | .bool b => cond b "true" "false"
  | .num n => toString n
  | .str s => s
  | .arr xs => String.intercalate "," (joinElemList xs)
  | .obj _ => "[object Object]"

/-- `joinElem` mapped over a list of values. -/
def joinElemList : List JSVal → List String
  | [] => []
  | v :: vs => joinElem v :: joinElemList vs

end

/-! ## The address validator

`IPV4_REGEX` and `IPV6_REGEX` (src/src/index.ts lines 296-299) are
compiled, alternative by alternative, into executable matchers over
`List Char`.  Both regexes are anchored (`^...$`) and none of their
octet/group sub-patterns can match a separator character, so splitting on
the separator is an exact compilation of the repetition structure. -/

/-- Split a character list at every occurrence of `sep` (the pieces do not
contain `sep`; `n` separators yield `n + 1` pieces, like `String.splitOn`). -/
def splitOnC (sep : Char) : List Char → List (List Char)
  | [] => [[]]
  | c :: cs =>
    if c = sep then [] :: splitOnC sep cs
    else
      match splitOnC sep cs with
      | [] => [[c]]
      | p :: ps => (c :: p) :: ps

/-- Join pieces with a separator character (inverse of `splitOnC`). -/
def joinC (sep : Char) : List (List Char) → List Char
  | [] => []
  | [p] => p
  | p :: ps => p ++ sep :: joinC sep ps

/-- One IPv4 octet of `IPV4_REGEX`:
`25[0-5]|2[0-4][0-9]|[01]?[0-9][0-9]?`. -/
def isOctet : List Char → Bool
  | [c] => c.isDigit
  | [c1, c2] => c1.isDigit && c2.isDigit
  | [c1, c2, c3] =>
    (c1 = '2' && c2 = '5' && '0' ≤ c3 && c3 ≤ '5')
    || (c1 = '2' && '0' ≤ c2 && c2 ≤ '4' && c3.isDigit)
    || ((c1 = '0' || c1 = '1') && c2.isDigit && c3.isDigit)
  | _ => false

/-- `IPV4_REGEX`: `^(?:octet\.){3}octet$` — exactly four dot-separated
octets. -/
def ipv4Chars (cs : List Char) : Bool :=
  match splitOnC '.' cs with
  | [a, b, c, d] => isOctet a && isOctet b && isOctet c && isOctet d
  | _ => false

/-- A hexadecimal digit `[0-9a-fA-F]`. -/
def hexDigit (c : Char) : Bool :=
  c.isDigit || ('a' ≤ c && c ≤ 'f') || ('A' ≤ c && c ≤ 'F')

/-- An IPv6 group `[0-9a-fA-F]{1,4}`. -/
def isH (p : List Char) : Bool :=
  decide (1 ≤ p.length) && decide (p.length ≤ 4) && p.all hexDigit

/-- The length of the maximal prefix of pieces that are IPv6 groups, with
the remaining pieces. -/
def takeHexGroups : List (List Char) → Nat × List (List Char)
  | [] => (0, [])
  | p :: ps =>
    if isH p then
      let r := takeHexGroups ps
      (r.1 + 1, r.2)
    else (0, p :: ps)

/-- One octet of the dotted-quad tail inside `IPV6_REGEX`:
`25[0-5]|(2[0-4]|1{0,1}[0-9]){0,1}[0-9]`
(note: unlike `IPV4_REGEX` this rejects a leading `0` in 3-digit octets). -/
def isOctetV6 : List Char → Bool
  | [c] => c.isDigit
  | [c1, c2] => c1.isDigit && c2.isDigit
  | [c1, c2, c3] =>
    (c1 = '2' && c2 = '5' && '0' ≤ c3 && c3 ≤ '5')
    || (c1 = '2' && '0' ≤ c2 && c2 ≤ '4' && c3.isDigit)
    || (c1 = '1' && c2.isDigit && c3.isDigit)
  | _ => false

/-- The embedded IPv4 tail of `IPV6_REGEX`: `(octet\.){3,3}octet`. -/
def isV4Tail (p : List Char) : Bool :=
  match splitOnC '.' p with
  | [a, b, c, d] => isOctetV6 a && isOctetV6 b && isOctetV6 c && isOctetV6 d
  | _ => false

/-- Alternative 1 of `IPV6_REGEX`: `([hex]{1,4}:){7,7}[hex]{1,4}`
(full 8-group form). -/
def v6Full (ps : List (List Char)) : Bool :=
  decide (ps.length = 8) && ps.all isH

/-- Alternative 2: `([hex]{1,4}:){1,7}:` — one to seven groups followed by
a trailing `::` (the string splits into the groups and two empty pieces). -/
def v6TrailCompress (ps : List (List Char)) : Bool :=
  match takeHexGroups ps with
  | (k, [r1, r2]) =>
    r1.isEmpty && r2.isEmpty && decide (1 ≤ k) && decide (k ≤ 7)
  | _ => false

/-- Alternatives 3-8: `([hex]{1,4}:){1,k}(:[hex]{1,4}){1,n}` for
`(k,n) ∈ {(6,1),(5,2),(4,3),(3,4),(2,5),(1,6)}` — head groups, one `::`,
tail groups. -/
def v6MidCompress (ps : List (List Char)) : Bool :=
  match takeHexGroups ps with
  | (k, [] :: ts) =>
    ts.all isH && decide (1 ≤ k) && decide (1 ≤ ts.length) &&
    ((decide (k ≤ 6) && decide (ts.length = 1))
      || (decide (k ≤ 5) && decide (ts.length ≤ 2))
      || (decide (k ≤ 4) && decide (ts.length ≤ 3))
      || (decide (k ≤ 3) && decide (ts.length ≤ 4))
      || (decide (k ≤ 2) && decide (ts.length ≤ 5))
      || (decide (k = 1) && decide (ts.length ≤ 6)))
  | _ => false

/-- Alternative 9: `:((:[hex]{1,4}){1,7}|:)` — a leading `::` followed by
one to seven groups, or the bare `::`. -/
def v6LeadCompress (ps : List (List Char)) : Bool :=
  match ps with
  | [] :: [] :: ts =>
    (ts.all isH && decide (1 ≤ ts.length) && decide (ts.length ≤ 7))
    || decide (ts = [[]])
  | _ => false

/-- A possibly-empty short hex group `[0-9a-fA-F]{0,4}`. -/
def isHex04 (p : List Char) : Bool :=
  decide (p.length ≤ 4) && p.all hexDigit

/-- A zone-index character `[0-9a-zA-Z]`. -/
def zoneChar (c : Char) : Bool :=
  c.isDigit || ('a' ≤ c && c ≤ 'z') || ('A' ≤ c && c ≤ 'Z')

/-- The last piece of the link-local alternative: `[hex]{0,4}%[zone]{1,}`. -/
def zoneTail (p : List Char) : Bool :=
  match splitOnC '%' p with
  | [g, z] => isHex04 g && decide (1 ≤ z.length) && z.all zoneChar
  | _ => false

/-- Alternative 10: `fe80:(:[hex]{0,4}){0,4}%[0-9a-zA-Z]{1,}`
(link-local with zone index).  With zero inner groups the piece after
`fe80` starts with `%`; with `m ∈ [1,4]` groups the pieces are
`fe80`, an empty piece, the first `m-1` groups, and the last group fused
with `%zone`. -/
def v6Zone (ps : List (List Char)) : Bool :=
  match ps with
  | [f, p] =>
    decide (f = "fe80".data) &&
    (match splitOnC '%' p with
      | [g, z] => g.isEmpty && decide (1 ≤ z.length) && z.all zoneChar
      | _ => false)
  | f :: [] :: rest =>
    decide (f = "fe80".data) && decide (1 ≤ rest.length) &&
    decide (rest.length ≤ 4) && rest.dropLast.all isHex04 &&
    (match rest.getLast? with
      | some lastp => zoneTail lastp
      | none => false)
  | _ => false

/-- Alternative 11: `::(ffff(:0{1,4}){0,1}:){0,1}` followed by the
dotted-quad tail (IPv4-mapped form). -/
def v6Mapped (ps : List (List Char)) : Bool :=
  match ps with
  | [] :: [] :: rest =>
    match rest with
    | [v4] => isV4Tail v4
    | [ff, v4] => decide (ff = "ffff".data) && isV4Tail v4
    | [ff, zs, v4] =>
      decide (ff = "ffff".data) && decide (1 ≤ zs.length) &&
      decide (zs.length ≤ 4) && zs.all (· = '0') && isV4Tail v4
    | _ => false
  | _ => false

/-- Alternative 12: `([hex]{1,4}:){1,4}:` followed by the dotted-quad
tail. -/
def v6GroupsMapped (ps : List (List Char)) : Bool :=
  match takeHexGroups ps with
  | (k, [[], v4]) => decide (1 ≤ k) && decide (k ≤ 4) && isV4Tail v4
  | _ => false

/-- `IPV6_REGEX`: the disjunction of its twelve alternatives, decided on
the colon-separated pieces of the input. -/
def ipv6Chars (cs : List Char) : Bool :=
  let ps := splitOnC ':' cs
  v6Full ps || v6TrailCompress ps || v6MidCompress ps || v6LeadCompress ps
    || v6Zone ps || v6Mapped ps || v6GroupsMapped ps

/-- `IPFlare.isValidIP` (src/src/index.ts line 334):
`IPV4_REGEX.test(ip) || IPV6_REGEX.test(ip)`. -/
def isValidIP (s : String) : Bool :=
  ipv4Chars s.data || ipv6Chars s.data

/-! ## The Result / error model (src/src/index.ts lines 217-256) -/

/-- The `ErrorType` union (src/src/index.ts lines 218-229). -/
inductive ErrorType where
  | INVALID_IP_ADDRESS
  | RESERVED_IP_ADDRESS
  | GEOLOCATION_NOT_FOUND
  | INTERNAL_SERVER_ERROR
  | INVALID_INPUT
  | UNAUTHORIZED
  | QUOTA_EXCEEDED
  | NO_API_KEY_PROVIDED
  | NETWORK_ERROR
  | VALIDATION_ERROR
  | UNKNOWN_ERROR
deriving DecidableEq

/-- `ResultError` (lines 231-235).  `message` is kept as a runtime value
because the error-mapping code assigns the server's `error` field to it
unchanged, and that field need not be a string at runtime. -/
structure ResultError where
  type : ErrorType
  message : JSVal
  details : Option JSVal

/-- `Result<T>` (lines 237-247), at the payload type used by the client. -/
inductive LookupResult where
  | ok (data : JSVal)
  | err (e : ResultError)

/-- The observable outcome of one public API call: either the promise
resolves with a `Result` value, or a JavaScript exception escapes (the
promise rejects). -/
inductive CallResult where
  | ret (r : LookupResult)
  | exn (msg : String)

/-- Whether a call produced a `Result` value (rather than letting an
exception escape). -/
def CallResult.isReturned : CallResult → Bool
  | .ret _ => true
  | .exn _ => false

/-! ## The transport boundary -/

/-- The HTTP response attached to an axios error (`error.response`). -/
structure AxiosResponse where
  status : Nat
  statusText : String
  data : JSVal

/-- The outcome of the single `this.client.get` / `this.client.post` call:
the promise resolves (`success`, carrying `response.data`), rejects with a
value for which `axios.isAxiosError` is true (`axiosError`, with or
without an attached response), or rejects with any other value
(`thrown`). -/
inductive TransportOutcome where
  | success (data : JSVal)
  | axiosError (response : Option AxiosResponse)
  | thrown (v : JSVal)

/-- A request handed to the transport; each operation returns the list of
requests it issued, so "no network call is made" is `requests = []`. -/
inductive ApiRequest where
  | get (path : String) (fields : Option String)
  | post (path : String) (ips : List JSVal) (fields : Option String)

/-- The `fields` query parameter: `"asn"`/`"isp"` pushed in that order and
joined with `","`, omitted when neither flag is set (lines 398-406). -/
def fieldsParam (asn isp : Bool) : Option String :=
  let fields := (if asn then ["asn"] else []) ++ (if isp then ["isp"] else [])
  if 0 < fields.length then some (String.intercalate "," fields) else none

/-! ## Error mapping (the identical catch blocks, lines 417-498 and
599-680) -/

/-- The case-sensitive message classification applied to a string-valued
`error` field (lines 449-467): first match wins. -/
def classifyText (t : String) : ErrorType :=
  if strIncludes t "invalid" && strIncludes t "ip" then .INVALID_IP_ADDRESS
  else if strIncludes t "reserved" then .RESERVED_IP_ADDRESS
  else if strIncludes t "geolocation" || strIncludes t "not found" then
    .GEOLOCATION_NOT_FOUND
  else if strIncludes t "api key" then .NO_API_KEY_PROVIDED
  else if strIncludes t "input" then .INVALID_INPUT
  else .UNKNOWN_ERROR

/-- JavaScript `===` between a runtime value and a string. -/
def eqStrVal (v : JSVal) (s : String) : Bool :=
  match v with
  | .str t => t == s
  | _ => false

/-- `Array.prototype.includes` with a string argument (element equality,
not substring search) — the behaviour of the same if-chain when the
`error` field happens to be an array. -/
def arrIncludes (xs : List JSVal) (s : String) : Bool :=
  xs.any (fun v => eqStrVal v s)

/-- The same classification chain evaluated on an array-valued `error`
field. -/
def classifyArr (xs : List JSVal) : ErrorType :=
  if arrIncludes xs "invalid" && arrIncludes xs "ip" then .INVALID_IP_ADDRESS
  else if arrIncludes xs "reserved" then .RESERVED_IP_ADDRESS
  else if arrIncludes xs "geolocation" || arrIncludes xs "not found" then
    .GEOLOCATION_NOT_FOUND
  else if arrIncludes xs "api key" then .NO_API_KEY_PROVIDED
  else if arrIncludes xs "input" then .INVALID_INPUT
  else .UNKNOWN_ERROR

/-- The `NETWORK_ERROR` fallback (lines 478-488): details carry
`error.response?.status` and `error.response?.statusText`, which are
`undefined` when there is no response. -/
def networkError (resp : Option AxiosResponse) : CallResult :=
  .ret (.err
    ⟨.NETWORK_ERROR, .str "Network error occurred",
      some (.obj
        [("status", match resp with | some r => .num r.status | none => .undef),
         ("statusText",
          match resp with | some r => .str r.statusText | none => .undef)])⟩)

/-- The shared catch-block mapping for a rejection with
`axios.isAxiosError(error) = true` (lines 418-489; the block at lines
600-671 is textually identical).  Note the `.exn` case: a truthy
non-string, non-array `error` field makes `apiError.includes` a TypeError
that escapes the catch block. -/
def handleAxiosError (resp : Option AxiosResponse) : CallResult :=
  match resp with
  | some r =>
    if r.status = 401 then
      .ret (.err ⟨.UNAUTHORIZED, .str "Invalid API key", some r.data⟩)
    else if r.status = 429 then
      .ret (.err ⟨.QUOTA_EXCEEDED, .str "Quota exceeded", some r.data⟩)
    else if r.status = 500 then
      .ret (.err ⟨.INTERNAL_SERVER_ERROR, .str "Internal server error", some r.data⟩)
    else
      match getField r.data "error" with
      | some apiError =>
        if truthy apiError then
          match apiError with
          | .str t => .ret (.err ⟨classifyText t, .str t, some r.data⟩)
          | .arr xs => .ret (.err ⟨classifyArr xs, .arr xs, some r.data⟩)
          | _ => .exn "TypeError: apiError.includes is not a function"
        else networkError resp
      | none => networkError resp
  | none => networkError none

/-! ## The public operations -/

/-- The explicit control-character pre-check of `lookup` (lines 372-377)
and of the bulk entry filter (lines 547-551): `\n`, `\r`, `\t`, NUL,
tested on the raw, untrimmed string. -/
def hasCtlChars (s : String) : Bool :=
  strIncludes s "\n" || strIncludes s "\r" || strIncludes s "\t"
    || strIncludes s "\x00"

/-- `IPFlare.lookup` (src/src/index.ts lines 344-498), with the transport
outcome passed explicitly and the issued requests returned alongside the
observable call result. -/
def lookup (ip : JSVal) (asn isp : Bool) (outcome : TransportOutcome) :
    CallResult × List ApiRequest :=
  if truthy ip = false then
    (.ret (.err ⟨.INVALID_INPUT, .str "IP address is required", none⟩), [])
  else
    match ip with
    | .str s =>
      let trimmedIP := jsTrim s
      if hasCtlChars s then
        (.ret (.err
          ⟨.INVALID_IP_ADDRESS, .str ("Invalid IP address format: " ++ s),
            none⟩), [])
      else if isValidIP trimmedIP = false then
        (.ret (.err
          ⟨.INVALID_IP_ADDRESS, .str ("Invalid IP address format: " ++ s),
            none⟩), [])
      else
        let req := ApiRequest.get ("/" ++ trimmedIP) (fieldsParam asn isp)
        match outcome with
        | .success data => (.ret (.ok data), [req])
        | .axiosError resp => (handleAxiosError resp, [req])
        | .thrown v =>
          (.ret (.err
            ⟨.UNKNOWN_ERROR, .str "An unexpected error occurred", some v⟩),
            [req])
    | _ =>
      (.ret (.err ⟨.INVALID_INPUT, .str "IP address must be a string", none⟩),
        [])

/-- The bulk validation filter predicate (lines 543-553): an entry is
invalid when it is not a string, contains a control character (checked
before trimming), or fails `isValidIP` after trimming. -/
def isInvalidBulkEntry : JSVal → Bool
  | .str s => hasCtlChars s || !isValidIP (jsTrim s)
  | _ => true

/-- `ip.trim()` as applied inside `ips.map` (line 577); every entry is a
string at that point, the other cases are unreachable. -/
def trimVal : JSVal → JSVal
  | .str s => .str (jsTrim s)
  | v => v

/-- The value thrown (and then caught by the surrounding catch block) when
`response.data.results` is read off a `null`/`undefined` body. -/
def caughtTypeError : JSVal :=
  .str "TypeError: Cannot read properties of null (reading 'results')"

/-- `IPFlare.bulkLookup` (src/src/index.ts lines 506-681). -/
def bulkLookup (ips : JSVal) (asn isp : Bool) (outcome : TransportOutcome) :
    CallResult × List ApiRequest :=
  match ips with
  | .arr list =>
    if list.length = 0 then
      (.ret (.err
        ⟨.INVALID_INPUT, .str "At least one IP address is required", none⟩),
        [])
    else if 500 < list.length then
      (.ret (.err
        ⟨.INVALID_INPUT, .str "Maximum of 500 IPs per request allowed",
          none⟩), [])
    else
      let invalidIPs := list.filter isInvalidBulkEntry
      if 0 < invalidIPs.length then
        (.ret (.err
          ⟨.INVALID_IP_ADDRESS,
            .str ("Invalid IP addresses found: "
              ++ String.intercalate ", " (joinElemList invalidIPs)),
            some (.obj [("invalidIPs", .arr invalidIPs)])⟩), [])
      else
        let trimmedIPs := list.map trimVal
        let req := ApiRequest.post "/bulk-lookup" trimmedIPs (fieldsParam asn isp)
        match outcome with
        | .success data =>
          match data with
          | .null =>
            -- `response.data.results` throws a TypeError, which the
            -- catch block turns into UNKNOWN_ERROR.
            (.ret (.err
              ⟨.UNKNOWN_ERROR, .str "An unexpected error occurred",
                some caughtTypeError⟩), [req])
          | .undef =>
            (.ret (.err
              ⟨.UNKNOWN_ERROR, .str "An unexpected error occurred",
                some caughtTypeError⟩), [req])
          | _ =>
            match getField data "results" with
            | some (.arr rs) => (.ret (.ok (.arr rs)), [req])
            | _ =>
              (.ret (.err
                ⟨.INTERNAL_SERVER_ERROR, .str "Invalid response format from API",
                  some data⟩), [req])
        | .axiosError resp => (handleAxiosError resp, [req])
        | .thrown v =>
          (.ret (.err
            ⟨.UNKNOWN_ERROR, .str "An unexpected error occurred", some v⟩),
            [req])
  | _ =>
    (.ret (.err ⟨.INVALID_INPUT, .str "IPs must be an array", none⟩), [])

/-! ## Spec-side classification (for the refinement comparison of C2) -/

/-- ASCII lower-casing of one character. -/
def lowerChar (c : Char) : Char :=
  if 'A' ≤ c && c ≤ 'Z' then Char.ofNat (c.toNat + 32) else c

/-- ASCII lower-casing of a string (enough for the spec's lower-case
search needles). -/
def lowerStr (s : String) : String := String.mk (s.data.map lowerChar)

/-- Modelled from the spec: the claim's case-INSENSITIVE substring
classification of a server error text, first match wins, in the claim's
fixed order. -/
def specClassifyCI (t : String) : ErrorType :=
  let l := lowerStr t
  if strIncludes l "invalid" && strIncludes l "ip" then .INVALID_IP_ADDRESS
  else if strIncludes l "reserved" then .RESERVED_IP_ADDRESS
  else if strIncludes l "geolocation" || strIncludes l "not found" then
    .GEOLOCATION_NOT_FOUND
  else if strIncludes l "api key" then .NO_API_KEY_PROVIDED
  else if strIncludes l "input" then .INVALID_INPUT
  else .UNKNOWN_ERROR

/-- Modelled from the spec, amended: the same fixed-order substring
classification taken case-SENSITIVELY (the match of the claim after the
correction forced by the code). -/
def specClassifyCS (t : String) : ErrorType :=
  if strIncludes t "invalid" && strIncludes t "ip" then .INVALID_IP_ADDRESS
  else if strIncludes t "reserved" then .RESERVED_IP_ADDRESS
  else if strIncludes t "geolocation" || strIncludes t "not found" then
    .GEOLOCATION_NOT_FOUND
  else if strIncludes t "api key" then .NO_API_KEY_PROVIDED
  else if strIncludes t "input" then .INVALID_INPUT
  else .UNKNOWN_ERROR

/-! ## Decimal numerals (for the IPv4 grammar statements of C7) -/

/-- The character of a decimal digit. -/
def digitCh (d : Nat) : Char := Char.ofNat (48 + d)

/-- Fuel-indexed canonical decimal digits of a natural number. -/
def natDigitsAux : Nat → Nat → List Char
  | 0, _ => []
  | fuel + 1, n =>
    if n < 10 then [digitCh n]
    else natDigitsAux fuel (n / 10) ++ [digitCh (n % 10)]

/-- The canonical decimal numeral of a natural number, as characters. -/
def natDigits (n : Nat) : List Char := natDigitsAux (n + 1) n

/-- A dot-separated sequence of decimal numerals, e.g.
`dottedNat [192, 0, 2, 1] = "192.0.2.1"`. -/
def dottedNat (os : List Nat) : String := String.mk (joinC '.' (os.map natDigits))

/-! ## Lemmas about splitting and joining -/

theorem splitOnC_not_mem {sep : Char} {cs : List Char} (h : sep ∉ cs) :
    splitOnC sep cs = [cs] := by
  induction cs with
  | nil => rfl
  | cons c rest ih =>
    have hc : ¬c = sep := fun e => h (e ▸ List.mem_cons_self c rest)
    have hrest : sep ∉ rest := fun m => h (List.mem_cons_of_mem _ m)
    simp [splitOnC, hc, ih hrest]

theorem splitOnC_append {sep : Char} {xs ys : List Char} (h : sep ∉ xs) :
    splitOnC sep (xs ++ sep :: ys) = xs :: splitOnC sep ys := by
  induction xs with
  | nil => simp [splitOnC]
  | cons c rest ih =>
    have hc : ¬c = sep := fun e => h (e ▸ List.mem_cons_self c rest)
    have hrest : sep ∉ rest := fun m => h (List.mem_cons_of_mem _ m)
    simp [splitOnC, hc, ih hrest]

theorem splitOnC_joinC {sep : Char} {l : List (List Char)} (hne : l ≠ [])
    (h : ∀ p ∈ l, sep ∉ p) : splitOnC sep (joinC sep l) = l := by
  induction l with
  | nil => exact absurd rfl hne
  | cons p rest ih =>
    match rest with
    | [] => exact splitOnC_not_mem (h p (List.mem_cons_self p []))
    | q :: rest' =>
      have hp : sep ∉ p := h p (List.mem_cons_self _ _)
      have htail : ∀ r ∈ q :: rest', sep ∉ r :=
        fun r hr => h r (List.mem_cons_of_mem _ hr)
      show splitOnC sep (p ++ sep :: joinC sep (q :: rest')) = _
      rw [splitOnC_append hp, ih (by simp) htail]

theorem mem_joinC {sep : Char} {l : List (List Char)} {c : Char}
    (h : c ∈ joinC sep l) : c = sep ∨ ∃ p ∈ l, c ∈ p := by
  induction l with
  | nil => simp [joinC] at h
  | cons p rest ih =>
    match rest with
    | [] => exact Or.inr ⟨p, List.mem_cons_self _ _, h⟩
    | q :: rest' =>
      rcases List.mem_append.mp h with hp | hs
      · exact Or.inr ⟨p, List.mem_cons_self _ _, hp⟩
      · rcases List.mem_cons.mp hs with rfl | hj
        · exact Or.inl rfl
        · rcases ih hj with e | ⟨r, hr, hcr⟩
          · exact Or.inl e
          · exact Or.inr ⟨r, List.mem_cons_of_mem _ hr, hcr⟩

/-! ## Lemmas about decimal numerals -/

theorem digitCh_isDigit : ∀ d, d < 10 → (digitCh d).isDigit = true := by decide

theorem mem_natDigitsAux_isDigit :
    ∀ (fuel n : Nat) (c : Char), c ∈ natDigitsAux fuel n → c.isDigit = true := by
  intro fuel
  induction fuel with
  | zero => intro n c hc; simp [natDigitsAux] at hc
  | succ f ih =>
    intro n c hc
    by_cases h : n < 10
    · simp [natDigitsAux, h] at hc
      exact hc ▸ digitCh_isDigit n h
    · simp [natDigitsAux, h] at hc
      rcases hc with hc | hc
      · exact ih _ _ hc
      · exact hc ▸ digitCh_isDigit _ (Nat.mod_lt _ (by omega))

theorem mem_natDigits_isDigit {n : Nat} {c : Char} (h : c ∈ natDigits n) :
    c.isDigit = true :=
  mem_natDigitsAux_isDigit _ _ _ h

theorem natDigitsAux_len1 : ∀ fuel n, 1 ≤ fuel →
    1 ≤ (natDigitsAux fuel n).length := by
  intro fuel n h
  match fuel with
  | f + 1 =>
    by_cases h10 : n < 10 <;> simp [natDigitsAux, h10]

theorem natDigitsAux_len2 : ∀ fuel n, 2 ≤ fuel → 10 ≤ n →
    2 ≤ (natDigitsAux fuel n).length := by
  intro fuel n hf hn
  match fuel with
  | f + 1 =>
    have h10 : ¬n < 10 := by omega
    have := natDigitsAux_len1 f (n / 10) (by omega)
    simp [natDigitsAux, h10]
    omega

theorem natDigitsAux_len3 : ∀ fuel n, 3 ≤ fuel → 100 ≤ n →
    3 ≤ (natDigitsAux fuel n).length := by
  intro fuel n hf hn
  match fuel with
  | f + 1 =>
    have h10 : ¬n < 10 := by omega
    have hq : 10 ≤ n / 10 := by omega
    have := natDigitsAux_len2 f (n / 10) (by omega) hq
    simp [natDigitsAux, h10]
    omega

theorem natDigitsAux_len4 : ∀ fuel n, 4 ≤ fuel → 1000 ≤ n →
    4 ≤ (natDigitsAux fuel n).length := by
  intro fuel n hf hn
  match fuel with
  | f + 1 =>
    have h10 : ¬n < 10 := by omega
    have hq : 100 ≤ n / 10 := by omega
    have := natDigitsAux_len3 f (n / 10) (by omega) hq
    simp [natDigitsAux, h10]
    omega

theorem isOctet_of_long {cs : List Char} (h : 4 ≤ cs.length) :
    isOctet cs = false := by
  match cs with
  | [] => simp at h
  | [_] => simp at h
  | [_, _] => simp at h
  | [_, _, _] => simp at h
  | _ :: _ :: _ :: _ :: _ => rfl

set_option maxRecDepth 8192 in
theorem isOctet_natDigits_le255 : ∀ o, o < 256 → isOctet (natDigits o) = true := by
  decide

set_option maxRecDepth 16384 in
theorem isOctet_natDigits_mid : ∀ o, o < 1000 → 255 < o →
    isOctet (natDigits o) = false := by
  decide

theorem isOctet_natDigits_big {o : Nat} (h : 255 < o) :
    isOctet (natDigits o) = false := by
  by_cases h1000 : o < 1000
  · exact isOctet_natDigits_mid o h1000 h
  · exact isOctet_of_long (natDigitsAux_len4 (o + 1) o (by omega) (by omega))

/-! ## No alternative of `IPV6_REGEX` matches a colon-free string -/

theorem takeHexGroups_singleton (cs : List Char) :
    takeHexGroups [cs] = if isH cs then (1, []) else (0, [cs]) := by
  by_cases h : isH cs <;> simp [takeHexGroups, h]

theorem v6Full_singleton (cs : List Char) : v6Full [cs] = false := by
  simp [v6Full]

theorem v6TrailCompress_singleton (cs : List Char) :
    v6TrailCompress [cs] = false := by
  by_cases h : isH cs <;>
    simp [v6TrailCompress, takeHexGroups_singleton, h]

theorem v6MidCompress_singleton (cs : List Char) :
    v6MidCompress [cs] = false := by
  by_cases h : isH cs
  · simp [v6MidCompress, takeHexGroups_singleton, h]
  · rcases cs with _ | ⟨c, cs'⟩
    · simp [v6MidCompress, takeHexGroups, isH]
    · simp [v6MidCompress, takeHexGroups_singleton, h]

theorem v6LeadCompress_singleton (cs : List Char) :
    v6LeadCompress [cs] = false := by
  rcases cs with _ | ⟨c, cs'⟩ <;> rfl

theorem v6Zone_singleton (cs : List Char) : v6Zone [cs] = false := rfl

theorem v6Mapped_singleton (cs : List Char) : v6Mapped [cs] = false := by
  rcases cs with _ | ⟨c, cs'⟩ <;> rfl

theorem v6GroupsMapped_singleton (cs : List Char) :
    v6GroupsMapped [cs] = false := by
  by_cases h : isH cs <;>
    simp [v6GroupsMapped, takeHexGroups_singleton, h]

theorem ipv6Chars_no_colon {cs : List Char} (h : ':' ∉ cs) :
    ipv6Chars cs = false := by
  unfold ipv6Chars
  rw [splitOnC_not_mem h]
  simp [v6Full_singleton, v6TrailCompress_singleton, v6MidCompress_singleton,
    v6LeadCompress_singleton, v6Zone_singleton, v6Mapped_singleton,
    v6GroupsMapped_singleton]

theorem natDigits_no_dot (n : Nat) : '.' ∉ natDigits n := by
  intro h
  exact absurd (mem_natDigits_isDigit h) (by decide)

theorem natDigits_no_colon (n : Nat) : ':' ∉ natDigits n := by
  intro h
  exact absurd (mem_natDigits_isDigit h) (by decide)

theorem no_colon_in_dotted (os : List Nat) :
    ':' ∉ joinC '.' (os.map natDigits) := by
  intro h
  rcases mem_joinC h with e | ⟨p, hp, hcp⟩
  · exact absurd e (by decide)
  · rcases List.mem_map.mp hp with ⟨n, _, rfl⟩
    exact natDigits_no_colon n hcp

theorem ipv4Chars_dotted_false {os : List Nat} (hos : os ≠ [])
    (h : os.length ≠ 4 ∨ ∃ o ∈ os, 255 < o) :
    ipv4Chars (joinC '.' (os.map natDigits)) = false := by
  have hsplit : splitOnC '.' (joinC '.' (os.map natDigits)) = os.map natDigits :=
    splitOnC_joinC (by simpa using hos)
      (by
        intro p hp hdot
        rcases List.mem_map.mp hp with ⟨n, _, rfl⟩
        exact natDigits_no_dot n hdot)
  unfold ipv4Chars
  rw [hsplit]
  rcases os with _ | ⟨a, _ | ⟨b, _ | ⟨c, _ | ⟨d, _ | ⟨e, rest⟩⟩⟩⟩⟩
  · exact absurd rfl hos
  · rfl
  · rfl
  · rfl
  · rcases h with hlen | ⟨o, ho, hgt⟩
    · simp at hlen
    · have hno : isOctet (natDigits o) = false := isOctet_natDigits_big hgt
      simp only [List.mem_cons, List.not_mem_nil, or_false] at ho
      rcases ho with rfl | rfl | rfl | rfl <;> simp [hno]
  · rfl

/-- C7: every string of exactly four dot-separated decimal octets in
[0,255] is accepted by the address validator, and every dot-separated
sequence of decimal numerals with a segment count other than four or with
an octet above 255 is rejected. -/
theorem c7_ipv4_grammar :
    (∀ a b c d : Nat, a ≤ 255 → b ≤ 255 → c ≤ 255 → d ≤ 255 →
      isValidIP (dottedNat [a, b, c, d]) = true)
    ∧ (∀ os : List Nat, (os.length ≠ 4 ∨ ∃ o ∈ os, 255 < o) →
      isValidIP (dottedNat os) = false) := by
  constructor
  · intro a b c d ha hb hc hd
    have hsplit : splitOnC '.'
        (joinC '.' [natDigits a, natDigits b, natDigits c, natDigits d])
        = [natDigits a, natDigits b, natDigits c, natDigits d] :=
      splitOnC_joinC (by simp) (by
        intro p hp hdot
        simp only [List.mem_cons, List.not_mem_nil, or_false] at hp
        rcases hp with rfl | rfl | rfl | rfl <;> exact natDigits_no_dot _ hdot)
    have h4 : ipv4Chars
        (joinC '.' [natDigits a, natDigits b, natDigits c, natDigits d]) = true := by
      unfold ipv4Chars
      rw [hsplit]
      simp [isOctet_natDigits_le255 a (by omega), isOctet_natDigits_le255 b (by omega),
        isOctet_natDigits_le255 c (by omega), isOctet_natDigits_le255 d (by omega)]
    simp [isValidIP, dottedNat, List.map, h4]
  · intro os h
    rcases os with _ | ⟨o1, os'⟩
    · decide
    · have hos : (o1 :: os') ≠ ([] : List Nat) := by simp
      have hv4 := ipv4Chars_dotted_false hos h
      have hv6 : ipv6Chars (joinC '.' ((o1 :: os').map natDigits)) = false :=
        ipv6Chars_no_colon (no_colon_in_dotted _)
      simp only [List.map_cons] at hv4 hv6
      simp [isValidIP, dottedNat, hv4, hv6]

/-- C7 witness: `192.0.2.1` is accepted; `1.2.3` (three segments) and
`1.2.3.256` (octet above 255) are rejected. -/
theorem c7_ipv4_grammar_witness :
    isValidIP (dottedNat [192, 0, 2, 1]) = true
    ∧ isValidIP (dottedNat [1, 2, 3]) = false
    ∧ isValidIP (dottedNat [1, 2, 3, 256]) = false :=
  ⟨c7_ipv4_grammar.1 192 0 2 1 (by omega) (by omega) (by omega) (by omega),
   c7_ipv4_grammar.2 [1, 2, 3] (Or.inl (by decide)),
   c7_ipv4_grammar.2 [1, 2, 3, 256] (Or.inr ⟨256, by decide, by decide⟩)⟩

set_option maxRecDepth 8192 in
/-- C8: the validator accepts the IPv6 literals `::1`, `fe80::1`,
`::ffff:192.0.2.1`, `2001:db8::ff00:42:8329` and rejects `gggg::1`,
`:::1`, `2001:db8::ff00::42:8329`. -/
theorem c8_ipv6_examples :
    isValidIP "::1" = true
    ∧ isValidIP "fe80::1" = true
    ∧ isValidIP "::ffff:192.0.2.1" = true
    ∧ isValidIP "2001:db8::ff00:42:8329" = true
    ∧ isValidIP "gggg::1" = false
    ∧ isValidIP ":::1" = false
    ∧ isValidIP "2001:db8::ff00::42:8329" = false := by
  decide

/-! ## Helper lemmas about the client -/

theorem hasCtl_truthy {s : String} (h : hasCtlChars s = true) :
    truthy (.str s) = true := by
  rcases hsd : s.data with _ | ⟨c, cs⟩
  · exfalso
    unfold hasCtlChars strIncludes at h
    rw [hsd] at h
    exact absurd h (by decide)
  · simp [truthy, hsd]

theorem handleAxiosError_details_not_none :
    ∀ (resp : Option AxiosResponse) (e : ResultError),
      handleAxiosError resp = .ret (.err e) → e.details ≠ none := by
  intro resp e h hnone
  rcases resp with _ | r
  · unfold handleAxiosError networkError at h
    cases h
    simp at hnone
  · unfold handleAxiosError networkError at h
    repeat' split at h
    all_goals first | (cases h; simp at hnone) | simp at h

/-- C1: every input failing `lookup`'s local validation (empty input,
non-string input, string containing a control character, string invalid
after trimming) yields the corresponding error `Result` with no transport
request issued; in particular any string containing `\n`, `\r`, `\t` or
NUL yields `INVALID_IP_ADDRESS` with zero transport calls. -/
theorem c1_validation_failures_no_transport :
    (∀ (v : JSVal) (asn isp : Bool) (o : TransportOutcome), truthy v = false →
      lookup v asn isp o
        = (.ret (.err ⟨.INVALID_INPUT, .str "IP address is required", none⟩), []))
    ∧ (∀ (v : JSVal) (asn isp : Bool) (o : TransportOutcome),
        truthy v = true → isStr v = false →
      lookup v asn isp o
        = (.ret (.err ⟨.INVALID_INPUT, .str "IP address must be a string", none⟩),
            []))
    ∧ (∀ (s : String) (asn isp : Bool) (o : TransportOutcome),
        hasCtlChars s = true →
      lookup (.str s) asn isp o
        = (.ret (.err ⟨.INVALID_IP_ADDRESS,
            .str ("Invalid IP address format: " ++ s), none⟩), []))
    ∧ (∀ (s : String) (asn isp : Bool) (o : TransportOutcome),
        truthy (.str s) = true → isValidIP (jsTrim s) = false →
      lookup (.str s) asn isp o
        = (.ret (.err ⟨.INVALID_IP_ADDRESS,
            .str ("Invalid IP address format: " ++ s), none⟩), [])) := by
  refine ⟨?_, ?_, ?_, ?_⟩
  · intro v asn isp o h
    simp [lookup, h]
  · intro v asn isp o h1 h2
    rcases v with _ | _ | b | n | s | xs | kvs <;> simp_all [lookup, truthy, isStr]
  · intro s asn isp o h
    simp [lookup, hasCtl_truthy h, h]
  · intro s asn isp o h1 h2
    by_cases hc : hasCtlChars s <;> simp [lookup, h1, h2, hc]

/-- C1 witness: the empty string, the number `7`, a string containing a
newline, and `"not-an-ip"` each fail locally with the corresponding error
and an empty request list. -/
theorem c1_validation_failures_no_transport_witness :
    lookup (.str "") false false (.success .null)
      = (.ret (.err ⟨.INVALID_INPUT, .str "IP address is required", none⟩), [])
    ∧ lookup (.num 7) false false (.success .null)
      = (.ret (.err ⟨.INVALID_INPUT, .str "IP address must be a string", none⟩),
          [])
    ∧ lookup (.str "1.2.3.4\n") false false (.success .null)
      = (.ret (.err ⟨.INVALID_IP_ADDRESS,
          .str ("Invalid IP address format: " ++ "1.2.3.4\n"), none⟩), [])
    ∧ lookup (.str "not-an-ip") false false (.success .null)
      = (.ret (.err ⟨.INVALID_IP_ADDRESS,
          .str ("Invalid IP address format: " ++ "not-an-ip"), none⟩), []) :=
  ⟨c1_validation_failures_no_transport.1 _ false false _ (by decide),
   c1_validation_failures_no_transport.2.1 _ false false _ (by decide) (by decide),
   c1_validation_failures_no_transport.2.2.1 "1.2.3.4\n" false false _ (by decide),
   c1_validation_failures_no_transport.2.2.2 "not-an-ip" false false _
     (by decide) (by decide)⟩

/-- C10: every falsy non-string argument (`null`, `undefined`, `0`,
`false`) produces `INVALID_INPUT` "IP address is required" (the emptiness
check runs before the type check), and the "must be a string" message is
produced only for truthy non-string inputs. -/
theorem c10_falsy_before_type_check :
    (∀ (asn isp : Bool) (o : TransportOutcome),
      lookup .null asn isp o
        = (.ret (.err ⟨.INVALID_INPUT, .str "IP address is required", none⟩), [])
      ∧ lookup .undef asn isp o
        = (.ret (.err ⟨.INVALID_INPUT, .str "IP address is required", none⟩), [])
      ∧ lookup (.num 0) asn isp o
        = (.ret (.err ⟨.INVALID_INPUT, .str "IP address is required", none⟩), [])
      ∧ lookup (.bool false) asn isp o
        = (.ret (.err ⟨.INVALID_INPUT, .str "IP address is required", none⟩), []))
    ∧ (∀ (v : JSVal) (asn isp : Bool) (o : TransportOutcome),
        (lookup v asn isp o).1
          = .ret (.err ⟨.INVALID_INPUT, .str "IP address must be a string", none⟩) →
        truthy v = true ∧ isStr v = false) := by
  constructor
  · intro asn isp o
    exact ⟨by simp [lookup, truthy], by simp [lookup, truthy],
      by simp [lookup, truthy], by simp [lookup, truthy]⟩
  · intro v asn isp o h
    rcases v with _ | _ | b | n | s | xs | kvs
    · simp [lookup, truthy] at h
    · simp [lookup, truthy] at h
    · rcases b <;> simp_all [lookup, truthy, isStr]
    · by_cases hn : n = 0
      · subst hn; simp [lookup, truthy] at h
      · exact ⟨by simp [truthy, hn], rfl⟩
    · exfalso
      by_cases h0 : truthy (.str s) = false
      · simp [lookup, h0] at h
      · have h1 : truthy (.str s) = true := by
          revert h0; rcases truthy (.str s) <;> simp
        by_cases hc : hasCtlChars s
        · simp [lookup, h1, hc] at h
        · by_cases hv : isValidIP (jsTrim s) = false
          · simp [lookup, h1, hc, hv] at h
          · have hv1 : isValidIP (jsTrim s) = true := by
              revert hv; rcases isValidIP (jsTrim s) <;> simp
            rcases o with d | resp | w
            · simp [lookup, h1, hc, hv1] at h
            · simp only [lookup, h1, hc, hv1] at h
              simp only [Bool.true_eq_false, if_false, Bool.false_eq_true] at h
              exact handleAxiosError_details_not_none resp _ h (by rfl)
            · simp [lookup, h1, hc, hv1] at h
    · exact ⟨rfl, rfl⟩
    · exact ⟨rfl, rfl⟩

/-- C10 witness: `lookup(null)` returns "IP address is required", and the
"must be a string" result for input `7` implies `7` is truthy and not a
string. -/
theorem c10_falsy_before_type_check_witness :
    lookup .null false false (.success .null)
      = (.ret (.err ⟨.INVALID_INPUT, .str "IP address is required", none⟩), [])
    ∧ (truthy (.num 7) = true ∧ isStr (.num 7) = false) :=
  ⟨(c10_falsy_before_type_check.1 false false (.success .null)).1,
   c10_falsy_before_type_check.2 (.num 7) false false (.success .null) (by rfl)⟩

/-- C3: on an axios failure carrying an HTTP response, both operations map
status 401 to `UNAUTHORIZED`/"Invalid API key", 429 to
`QUOTA_EXCEEDED`/"Quota exceeded" and 500 to
`INTERNAL_SERVER_ERROR`/"Internal server error", for every response body —
in particular bodies carrying an `error` text, so the status rules take
priority over message sniffing. -/
theorem c3_status_code_priority :
    ∀ (s : String) (l : List JSVal) (asn isp : Bool) (st : String) (body : JSVal),
      truthy (.str s) = true → hasCtlChars s = false →
      isValidIP (jsTrim s) = true →
      1 ≤ l.length → l.length ≤ 500 → l.filter isInvalidBulkEntry = [] →
      ((lookup (.str s) asn isp (.axiosError (some ⟨401, st, body⟩))).1
          = .ret (.err ⟨.UNAUTHORIZED, .str "Invalid API key", some body⟩)
        ∧ (lookup (.str s) asn isp (.axiosError (some ⟨429, st, body⟩))).1
          = .ret (.err ⟨.QUOTA_EXCEEDED, .str "Quota exceeded", some body⟩)
        ∧ (lookup (.str s) asn isp (.axiosError (some ⟨500, st, body⟩))).1
          = .ret (.err ⟨.INTERNAL_SERVER_ERROR, .str "Internal server error",
              some body⟩)
        ∧ (bulkLookup (.arr l) asn isp (.axiosError (some ⟨401, st, body⟩))).1
          = .ret (.err ⟨.UNAUTHORIZED, .str "Invalid API key", some body⟩)
        ∧ (bulkLookup (.arr l) asn isp (.axiosError (some ⟨429, st, body⟩))).1
          = .ret (.err ⟨.QUOTA_EXCEEDED, .str "Quota exceeded", some body⟩)
        ∧ (bulkLookup (.arr l) asn isp (.axiosError (some ⟨500, st, body⟩))).1
          = .ret (.err ⟨.INTERNAL_SERVER_ERROR, .str "Internal server error",
              some body⟩)) := by
  intro s l asn isp st body h1 h2 h3 hlen1 hlen2 hfilter
  have hne : ¬(l.length = 0) := by omega
  have h500 : ¬(500 < l.length) := by omega
  refine ⟨?_, ?_, ?_, ?_, ?_, ?_⟩ <;>
    simp [lookup, bulkLookup, h1, h2, h3, hne, h500, hfilter, handleAxiosError]

/-- C3 witness: with a body whose `error` text would classify as
`INVALID_IP_ADDRESS`, status 401 still wins for both operations. -/
theorem c3_status_code_priority_witness :
    (lookup (.str "178.238.11.6") false false
        (.axiosError (some ⟨401, "Unauthorized",
          .obj [("error", .str "invalid ip address")]⟩))).1
      = .ret (.err ⟨.UNAUTHORIZED, .str "Invalid API key",
          some (.obj [("error", .str "invalid ip address")])⟩)
    ∧ (bulkLookup (.arr [.str "9.9.9.9"]) false false
        (.axiosError (some ⟨401, "Unauthorized",
          .obj [("error", .str "invalid ip address")]⟩))).1
      = .ret (.err ⟨.UNAUTHORIZED, .str "Invalid API key",
          some (.obj [("error", .str "invalid ip address")])⟩) :=
  ⟨(c3_status_code_priority "178.238.11.6" [.str "9.9.9.9"] false false
      "Unauthorized" (.obj [("error", .str "invalid ip address")])
      (by decide) (by decide) (by decide) (by decide) (by decide) rfl).1,
   (c3_status_code_priority "178.238.11.6" [.str "9.9.9.9"] false false
      "Unauthorized" (.obj [("error", .str "invalid ip address")])
      (by decide) (by decide) (by decide) (by decide) (by decide) rfl).2.2.2.1⟩

/-- C5: when the ips array (1 to 500 entries) contains at least one
invalid entry, `bulkLookup` returns `INVALID_IP_ADDRESS` whose message
joins the filtered invalid entries (order preserved, duplicates kept,
via `List.filter`) with ", ", whose details carry `{invalidIPs}`, and it
issues no request. -/
theorem c5_bulk_invalid_collection :
    ∀ (l : List JSVal) (asn isp : Bool) (o : TransportOutcome),
      1 ≤ l.length → l.length ≤ 500 →
      0 < (l.filter isInvalidBulkEntry).length →
      bulkLookup (.arr l) asn isp o
        = (.ret (.err ⟨.INVALID_IP_ADDRESS,
            .str ("Invalid IP addresses found: "
              ++ String.intercalate ", "
                  (joinElemList (l.filter isInvalidBulkEntry))),
            some (.obj [("invalidIPs", .arr (l.filter isInvalidBulkEntry))])⟩),
          []) := by
  intro l asn isp o h1 h2 hf
  have hne : ¬(l.length = 0) := by omega
  have h500 : ¬(500 < l.length) := by omega
  simp [bulkLookup, hne, h500, hf]

/-- C5 witness: `["1.1.1.1", "bad", 7, "2.2.2.2"]` fails locally with the
two invalid entries (a string and a stringified number) in input order and
no request issued. -/
theorem c5_bulk_invalid_collection_witness :
    bulkLookup (.arr [.str "1.1.1.1", .str "bad", .num 7, .str "2.2.2.2"])
        false false (.success .null)
      = (.ret (.err ⟨.INVALID_IP_ADDRESS,
          .str "Invalid IP addresses found: bad, 7",
          some (.obj [("invalidIPs", .arr [.str "bad", .num 7])])⟩), []) :=
  c5_bulk_invalid_collection
    [.str "1.1.1.1", .str "bad", .num 7, .str "2.2.2.2"] false false
    (.success .null) (by decide) (by decide) (by decide)

/-- C6: the empty ips array gives `INVALID_INPUT` "At least one IP address
is required"; more than 500 entries give `INVALID_INPUT` "Maximum of 500
IPs per request allowed"; exactly 500 valid entries pass both checks and
reach the transport. -/
theorem c6_bulk_size_limits :
    (∀ (asn isp : Bool) (o : TransportOutcome),
      bulkLookup (.arr []) asn isp o
        = (.ret (.err ⟨.INVALID_INPUT,
            .str "At least one IP address is required", none⟩), []))
    ∧ (∀ (l : List JSVal) (asn isp : Bool) (o : TransportOutcome),
        500 < l.length →
      bulkLookup (.arr l) asn isp o
        = (.ret (.err ⟨.INVALID_INPUT,
            .str "Maximum of 500 IPs per request allowed", none⟩), []))
    ∧ (∀ (l : List JSVal) (asn isp : Bool) (data : JSVal) (rs : List JSVal),
        l.length = 500 → l.filter isInvalidBulkEntry = [] →
        getField data "results" = some (.arr rs) →
      bulkLookup (.arr l) asn isp (.success data)
        = (.ret (.ok (.arr rs)),
            [.post "/bulk-lookup" (l.map trimVal) (fieldsParam asn isp)])) := by
  refine ⟨?_, ?_, ?_⟩
  · intro asn isp o
    simp [bulkLookup]
  · intro l asn isp o h
    have hne : ¬(l.length = 0) := by omega
    simp [bulkLookup, hne, h]
  · intro l asn isp data rs hlen hfilter hres
    have hne : ¬(l.length = 0) := by omega
    have h500 : ¬(500 < l.length) := by omega
    rcases data with _ | _ | b | n | t | xs | kvs <;> simp_all [bulkLookup, getField]

theorem filter_replicate_none {α : Type} {p : α → Bool} {a : α}
    (h : p a = false) : ∀ n, (List.replicate n a).filter p = [] := by
  intro n
  induction n with
  | zero => rfl
  | succ m ih => simp [List.replicate_succ, List.filter_cons, h, ih]

/-- C6 witness: the empty array, a 501-entry array, and a 500-entry array
of `"1.1.1.1"` (which passes validation and reaches the transport). -/
theorem c6_bulk_size_limits_witness :
    bulkLookup (.arr []) false false (.success .null)
      = (.ret (.err ⟨.INVALID_INPUT,
          .str "At least one IP address is required", none⟩), [])
    ∧ bulkLookup (.arr (List.replicate 501 (.str "1.1.1.1"))) false false
        (.success .null)
      = (.ret (.err ⟨.INVALID_INPUT,
          .str "Maximum of 500 IPs per request allowed", none⟩), [])
    ∧ bulkLookup (.arr (List.replicate 500 (.str "1.1.1.1"))) false false
        (.success (.obj [("results", .arr [])]))
      = (.ret (.ok (.arr [])),
          [.post "/bulk-lookup"
            ((List.replicate 500 (.str "1.1.1.1")).map trimVal)
            (fieldsParam false false)]) :=
  ⟨c6_bulk_size_limits.1 false false (.success .null),
   c6_bulk_size_limits.2.1 _ false false (.success .null)
     (by rw [List.length_replicate]; omega),
   c6_bulk_size_limits.2.2 _ false false _ []
     (by rw [List.length_replicate])
     (filter_replicate_none (by decide) 500) rfl⟩

/-- C2 counterexample: for the HTTP 400 body `{error: "Invalid IP"}` the
claim's case-insensitive classifier gives `INVALID_IP_ADDRESS`, but
`lookup` returns `UNKNOWN_ERROR` — the code's `includes` checks are
case-sensitive. -/
theorem c2_error_text_classification_counterexample :
    (lookup (.str "8.8.8.8") false false
        (.axiosError (some ⟨400, "Bad Request",
          .obj [("error", .str "Invalid IP")]⟩))).1
      = .ret (.err ⟨.UNKNOWN_ERROR, .str "Invalid IP",
          some (.obj [("error", .str "Invalid IP")])⟩)
    ∧ specClassifyCI "Invalid IP" = .INVALID_IP_ADDRESS
    ∧ ErrorType.UNKNOWN_ERROR ≠ ErrorType.INVALID_IP_ADDRESS :=
  ⟨rfl, rfl, by decide⟩

/-- C2 (amended): for an HTTP error response whose status is not
401/429/500 and whose body carries a non-empty string `error` field, both
operations classify that text with the fixed-order, first-match-wins but
case-SENSITIVE substring rules (the code's chain equals the amended
spec-side classifier), and surface the server's text verbatim as the
message with the body as details. -/
theorem c2_error_text_classification_amended :
    (∀ t, classifyText t = specClassifyCS t)
    ∧ (∀ (s : String) (l : List JSVal) (asn isp : Bool) (status : Nat)
        (st : String) (body : JSVal) (t : String),
        truthy (.str s) = true → hasCtlChars s = false →
        isValidIP (jsTrim s) = true →
        1 ≤ l.length → l.length ≤ 500 → l.filter isInvalidBulkEntry = [] →
        status ≠ 401 → status ≠ 429 → status ≠ 500 →
        getField body "error" = some (.str t) → t ≠ "" →
        ((lookup (.str s) asn isp (.axiosError (some ⟨status, st, body⟩))).1
            = .ret (.err ⟨specClassifyCS t, .str t, some body⟩)
          ∧ (bulkLookup (.arr l) asn isp
                (.axiosError (some ⟨status, st, body⟩))).1
            = .ret (.err ⟨specClassifyCS t, .str t, some body⟩))) := by
  refine ⟨fun t => rfl, ?_⟩
  intro s l asn isp status st body t h1 h2 h3 hlen1 hlen2 hfilter h401 h429 h500 hg hte
  have hne : ¬(l.length = 0) := by omega
  have hle : ¬(500 < l.length) := by omega
  have htt : truthy (.str t) = true := by
    rcases t with ⟨td⟩
    rcases td with _ | ⟨c, cs⟩
    · exact absurd rfl hte
    · simp [truthy]
  constructor <;>
    simp [lookup, bulkLookup, h1, h2, h3, hne, hle, hfilter,
      handleAxiosError, h401, h429, h500, hg, htt] <;>
    rfl

/-- C2 witness: the lower-case server text "invalid ip address" is
classified as `INVALID_IP_ADDRESS` by both operations and surfaced
verbatim. -/
theorem c2_error_text_classification_amended_witness :
    (lookup (.str "178.238.11.6") false false
        (.axiosError (some ⟨400, "Bad Request",
          .obj [("error", .str "invalid ip address")]⟩))).1
      = .ret (.err ⟨specClassifyCS "invalid ip address",
          .str "invalid ip address",
          some (.obj [("error", .str "invalid ip address")])⟩)
    ∧ (bulkLookup (.arr [.str "9.9.9.9"]) false false
        (.axiosError (some ⟨400, "Bad Request",
          .obj [("error", .str "invalid ip address")]⟩))).1
      = .ret (.err ⟨specClassifyCS "invalid ip address",
          .str "invalid ip address",
          some (.obj [("error", .str "invalid ip address")])⟩) :=
  c2_error_text_classification_amended.2 "178.238.11.6" [.str "9.9.9.9"]
    false false 400 "Bad Request" (.obj [("error", .str "invalid ip address")])
    "invalid ip address" (by decide) (by decide) (by decide) (by decide)
    (by decide) rfl (by decide) (by decide) (by decide) rfl (by decide)

/-- Whether a value supports the `includes` calls of the error-mapping
chain (`typeof v === "string"` or an array). -/
def isArr : JSVal → Bool
  | .arr _ => true
  | _ => false

/-- A transport outcome on which the catch-block mapping cannot raise: any
outcome except an axios error whose response has a non-401/429/500 status
and a truthy non-string, non-array `error` field. -/
def outcomeSafe : TransportOutcome → Bool
  | .axiosError (some r) =>
    decide (r.status = 401) || decide (r.status = 429) || decide (r.status = 500)
      || (match getField r.data "error" with
          | some v => !truthy v || isStr v || isArr v
          | none => true)
  | _ => true

theorem handleAxiosError_returned (resp : Option AxiosResponse)
    (h : outcomeSafe (.axiosError resp) = true) :
    (handleAxiosError resp).isReturned = true := by
  rcases resp with _ | r
  · rfl
  · by_cases h1 : r.status = 401
    · simp [handleAxiosError, h1, CallResult.isReturned]
    · by_cases h2 : r.status = 429
      · simp [handleAxiosError, h1, h2, CallResult.isReturned]
      · by_cases h3 : r.status = 500
        · simp [handleAxiosError, h1, h2, h3, CallResult.isReturned]
        · have hm : (match getField r.data "error" with
              | some v => !truthy v || isStr v || isArr v
              | none => true) = true := by
            simpa [outcomeSafe, h1, h2, h3] using h
          rcases hg : getField r.data "error" with _ | v
          · simp [handleAxiosError, h1, h2, h3, hg, networkError,
              CallResult.isReturned]
          · rw [hg] at hm
            by_cases ht : truthy v
            · rcases v with _ | _ | b | n | u | xs | kvs <;>
                simp_all [handleAxiosError, h1, h2, h3, hg, isStr, isArr,
                  CallResult.isReturned]
            · simp [handleAxiosError, h1, h2, h3, hg, ht, networkError,
                CallResult.isReturned]

/-- C4 (amended): for every input and every transport outcome whose error
body, when it has a truthy `error` field outside the 401/429/500 statuses,
keeps that field a string (or array), both operations return a `Result`
(no exception escapes); rejections that are not axios errors surface as
`UNKNOWN_ERROR` with message "An unexpected error occurred". -/
theorem c4_no_exception_amended :
    (∀ (v : JSVal) (asn isp : Bool) (o : TransportOutcome),
      outcomeSafe o = true →
      (lookup v asn isp o).1.isReturned = true
      ∧ (bulkLookup v asn isp o).1.isReturned = true)
    ∧ (∀ (s : String) (asn isp : Bool) (w : JSVal),
        truthy (.str s) = true → hasCtlChars s = false →
        isValidIP (jsTrim s) = true →
        (lookup (.str s) asn isp (.thrown w)).1
          = .ret (.err ⟨.UNKNOWN_ERROR, .str "An unexpected error occurred",
              some w⟩))
    ∧ (∀ (l : List JSVal) (asn isp : Bool) (w : JSVal),
        1 ≤ l.length → l.length ≤ 500 → l.filter isInvalidBulkEntry = [] →
        (bulkLookup (.arr l) asn isp (.thrown w)).1
          = .ret (.err ⟨.UNKNOWN_ERROR, .str "An unexpected error occurred",
              some w⟩)) := by
  refine ⟨?_, ?_, ?_⟩
  · intro v asn isp o ho
    constructor
    · unfold lookup
      repeat' split
      all_goals dsimp only
      repeat' split
      all_goals first | rfl | exact handleAxiosError_returned _ ho
    · unfold bulkLookup
      repeat' split
      all_goals dsimp only
      repeat' split
      all_goals first | rfl | exact handleAxiosError_returned _ ho
  · intro s asn isp w h1 h2 h3
    simp [lookup, h1, h2, h3]
  · intro l asn isp w hlen1 hlen2 hfilter
    have hne : ¬(l.length = 0) := by omega
    have hle : ¬(500 < l.length) := by omega
    simp [bulkLookup, hne, hle, hfilter]

/-- C4 witness: a success outcome and a non-axios rejection at a valid
input both come back as `Result` values. -/
theorem c4_no_exception_amended_witness :
    (lookup (.str "8.8.8.8") false false
        (.success (.obj [("ip", .str "8.8.8.8")]))).1.isReturned = true
    ∧ (lookup (.str "8.8.8.8") false false (.thrown (.str "boom"))).1
        = .ret (.err ⟨.UNKNOWN_ERROR, .str "An unexpected error occurred",
            some (.str "boom")⟩) :=
  ⟨(c4_no_exception_amended.1 (.str "8.8.8.8") false false _ (by decide)).1,
   c4_no_exception_amended.2.1 "8.8.8.8" false false (.str "boom")
     (by decide) (by decide) (by decide)⟩

/-- C4 counterexample: with HTTP 400 and body `{error: 5}` — a truthy
non-string `error` field — `apiError.includes` is not a function, the
TypeError escapes the catch block, and `lookup` does not return a
`Result`. -/
theorem c4_no_exception_counterexample :
    (lookup (.str "8.8.8.8") false false
        (.axiosError (some ⟨400, "Bad Request",
          .obj [("error", .num 5)]⟩))).1
      = .exn "TypeError: apiError.includes is not a function"
    ∧ (lookup (.str "8.8.8.8") false false
        (.axiosError (some ⟨400, "Bad Request",
          .obj [("error", .num 5)]⟩))).1.isReturned = false :=
  ⟨rfl, rfl⟩

/-- C9 (amended): after a successful bulk transport call, a body with a
`results` array is passed through unmodified as success; a body that is
neither `null` nor `undefined` and has no `results` array yields
`INTERNAL_SERVER_ERROR` "Invalid response format from API" with the body
as details; a `null` body, however, yields `UNKNOWN_ERROR` (the property
read throws and is caught). -/
theorem c9_bulk_results_contract_amended :
    ∀ (l : List JSVal) (asn isp : Bool),
      1 ≤ l.length → l.length ≤ 500 → l.filter isInvalidBulkEntry = [] →
      ((∀ (data : JSVal) (rs : List JSVal),
          getField data "results" = some (.arr rs) →
          bulkLookup (.arr l) asn isp (.success data)
            = (.ret (.ok (.arr rs)),
                [.post "/bulk-lookup" (l.map trimVal) (fieldsParam asn isp)]))
        ∧ (∀ (data : JSVal), data ≠ .null → data ≠ .undef →
            (∀ rs, getField data "results" ≠ some (.arr rs)) →
            bulkLookup (.arr l) asn isp (.success data)
              = (.ret (.err ⟨.INTERNAL_SERVER_ERROR,
                  .str "Invalid response format from API", some data⟩),
                  [.post "/bulk-lookup" (l.map trimVal) (fieldsParam asn isp)]))
        ∧ bulkLookup (.arr l) asn isp (.success .null)
            = (.ret (.err ⟨.UNKNOWN_ERROR,
                .str "An unexpected error occurred", some caughtTypeError⟩),
                [.post "/bulk-lookup" (l.map trimVal) (fieldsParam asn isp)])) := by
  intro l asn isp hlen1 hlen2 hfilter
  have hne : ¬(l.length = 0) := by omega
  have hle : ¬(500 < l.length) := by omega
  refine ⟨?_, ?_, ?_⟩
  · intro data rs hres
    rcases data with _ | _ | b | n | t | xs | kvs <;>
      first
        | (simp [getField] at hres; done)
        | simp [bulkLookup, hne, hle, hfilter, hres]
  · intro data hnn hnu hno
    rcases data with _ | _ | b | n | t | xs | kvs
    · exact absurd rfl hnn
    · exact absurd rfl hnu
    · simp [bulkLookup, hne, hle, hfilter, getField]
    · simp [bulkLookup, hne, hle, hfilter, getField]
    · simp [bulkLookup, hne, hle, hfilter, getField]
    · simp [bulkLookup, hne, hle, hfilter, getField]
    · rcases hr : getField (.obj kvs) "results" with _ | v
      · simp [bulkLookup, hne, hle, hfilter, hr]
      · rcases v with _ | _ | b | n | t | xs | kvs'
        · simp [bulkLookup, hne, hle, hfilter, hr]
        · simp [bulkLookup, hne, hle, hfilter, hr]
        · simp [bulkLookup, hne, hle, hfilter, hr]
        · simp [bulkLookup, hne, hle, hfilter, hr]
        · simp [bulkLookup, hne, hle, hfilter, hr]
        · exact absurd hr (hno xs)
        · simp [bulkLookup, hne, hle, hfilter, hr]
  · simp [bulkLookup, hne, hle, hfilter]

/-- C9 witness: a `{results: [...]}` body passes through; the spec's
`{notResults: []}` body yields the INTERNAL_SERVER_ERROR shape error. -/
theorem c9_bulk_results_contract_amended_witness :
    bulkLookup (.arr [.str "1.1.1.1"]) false false
        (.success (.obj [("results", .arr [.str "anything"])]))
      = (.ret (.ok (.arr [.str "anything"])),
          [.post "/bulk-lookup" ([.str "1.1.1.1"].map trimVal)
            (fieldsParam false false)])
    ∧ bulkLookup (.arr [.str "1.1.1.1"]) false false
        (.success (.obj [("notResults", .arr [])]))
      = (.ret (.err ⟨.INTERNAL_SERVER_ERROR,
          .str "Invalid response format from API",
          some (.obj [("notResults", .arr [])])⟩),
          [.post "/bulk-lookup" ([.str "1.1.1.1"].map trimVal)
            (fieldsParam false false)]) :=
  ⟨(c9_bulk_results_contract_amended [.str "1.1.1.1"] false false
      (by decide) (by decide) rfl).1 _ _ rfl,
   (c9_bulk_results_contract_amended [.str "1.1.1.1"] false false
      (by decide) (by decide) rfl).2.1 _ (fun h => nomatch h)
     (fun h => nomatch h) (fun rs h => nomatch h)⟩

/-- C9 counterexample: a successful transport call with a `null` body (no
`results` field) yields `UNKNOWN_ERROR`, not the claimed
`INTERNAL_SERVER_ERROR` "Invalid response format from API". -/
theorem c9_bulk_results_contract_counterexample :
    bulkLookup (.arr [.str "1.1.1.1"]) false false (.success .null)
      = (.ret (.err ⟨.UNKNOWN_ERROR, .str "An unexpected error occurred",
          some caughtTypeError⟩),
          [.post "/bulk-lookup" ([.str "1.1.1.1"].map trimVal)
            (fieldsParam false false)])
    ∧ ErrorType.UNKNOWN_ERROR ≠ ErrorType.INTERNAL_SERVER_ERROR :=
  ⟨rfl, by decide⟩

end Ipflare
